import Mathlib

/-!
Verification of the "likering" authentication backend.

The repository is a small Express + PostgreSQL REST backend with several
near-duplicate variants.  We shallowly embed the request handlers that the
claims are about:

* the main variant (`src/index.js`, first document): `POST /api/usuarios/registro`
  (bcrypt-hashed registration with optional Cloudinary image upload),
  `POST /api/usuarios/login`, `GET /api/usuarios/buscar`;
* the plaintext variant (`src/index.js`, second document): `POST /api/usuarios`
  which stores `contrasena` verbatim;
* the `src/unnamed/part_001` variant: `GET /api/usuarios` which runs
  `SELECT * FROM usuarios` and returns the rows unsanitized.

External collaborators are modelled as follows.  The PostgreSQL `usuarios`
table is a list of rows plus a serial counter; its unique constraints on
`username` and `correo` reject a duplicate insert with error code 23505
without mutating the table.  The bcrypt library is idealised: a hash is a
string `"$2b$" ++ cost ++ "$" ++ salt ++ "$" ++ digest` where cost and salt
are unary-encoded and the digest is an injective image of the password
(ideal collision-freeness), and `bcryptCompare` parses the `$`-separated
fields and checks the digest, exactly as `bcrypt.compare` re-derives from
the salt embedded in the stored hash.  Fresh salt generation is modelled by
a `nextSalt` counter in the world state, incremented at each `bcrypt.hash`
call.  The Cloudinary image store is a list of uploaded payloads.
-/

/-- Skip everything up to and including the first `'$'`; `none` if there is
no `'$'`.  Used by the idealised `bcrypt.compare` to parse the
`$`-separated fields of a stored hash string. -/
def dropThroughDollar : List Char → Option (List Char)
  | [] => none
  | c :: cs => if c = '$' then some cs else dropThroughDollar cs

/-- Idealised `bcrypt.hash(password, cost)` with explicit salt: the stored
string embeds the cost and the fresh salt (unary-encoded, using characters
distinct from the separator) followed by the digest of the password. -/
def bcryptHash (password : String) (cost salt : Nat) : String :=
  String.mk ('$' :: '2' :: 'b' :: '$' ::
    (List.replicate cost '0' ++ '$' ::
      (List.replicate salt '.' ++ '$' :: password.data)))

/-- Idealised `bcrypt.compare(password, hash)`: parse the `"$2b$"` magic,
the cost field and the salt field out of the stored hash, then check the
remaining digest against the supplied password. -/
def bcryptCompare (password hash : String) : Bool :=
  match dropThroughDollar hash.data with
  | none => false
  | some r1 =>
    match dropThroughDollar r1 with
    | none => false
    | some r2 =>
      match dropThroughDollar r2 with
      | none => false
      | some r3 =>
        match dropThroughDollar r3 with
        | none => false
        | some digest => digest == password.data

/-- One row of the `usuarios` table as used by the main variant
(`src/index.js`, first document): columns `id, nombre, correo, username,
contrasena_hash, imagen_url`. -/
structure UserRow where
  id : Nat
  nombre : String
  correo : String
  username : String
  contrasena_hash : String
  imagen_url : Option String
  deriving Repr, DecidableEq

/-- The sanitized client view of an account: the columns selected by
`RETURNING id, nombre, username, correo, imagen_url` on register, and what
remains of a login row after `const { contrasena_hash, ...userData } = user`. -/
structure UserView where
  id : Nat
  nombre : String
  username : String
  correo : String
  imagen_url : Option String
  deriving Repr, DecidableEq

/-- Project a stored row to its sanitized client view (drop `contrasena_hash`). -/
def sanitizeRow (r : UserRow) : UserView :=
  ⟨r.id, r.nombre, r.username, r.correo, r.imagen_url⟩

/-- Body of an HTTP JSON response of the main variant: either an
`{ error: msg }` object or a sanitized user object. -/
inductive RespBody where
  | error (msg : String)
  | user (v : UserView)
  deriving Repr, DecidableEq

/-- An HTTP response: status code and JSON body. -/
structure Resp where
  status : Nat
  body : RespBody
  deriving Repr, DecidableEq

/-- A store operation issued by a handler through `pool.query`. -/
inductive StoreOp where
  | select (param : String)
  | insert (nombre correo username hash : String) (img : Option String)
  deriving Repr, DecidableEq

/-- Whether a store operation is a `SELECT` lookup. -/
def StoreOp.isSelect : StoreOp → Bool
  | .select _ => true
  | .insert _ _ _ _ _ => false

/-- The state the handlers act on: the `usuarios` table with its serial
`id` counter, the entropy source for bcrypt salts, and the Cloudinary
image store (list of uploaded base64 payloads). -/
structure World where
  rows : List UserRow
  nextId : Nat
  nextSalt : Nat
  cloud : List String
  deriving Repr, DecidableEq

/-- The `INSERT INTO usuarios ... RETURNING ...` statement: the unique
constraints on `username` and `correo` reject a duplicate with error code
23505 and leave the table unchanged; otherwise the row is appended with
the next serial id. -/
def insertUsuario (w : World) (nombre correo username hash : String)
    (img : Option String) : Except Unit (World × UserRow) :=
  if w.rows.any (fun r => r.username == username || r.correo == correo) then
    Except.error ()
  else
    let row : UserRow := ⟨w.nextId, nombre, correo, username, hash, img⟩
    Except.ok ({ w with rows := w.rows ++ [row], nextId := w.nextId + 1 }, row)

/-- Request body of `POST /api/usuarios/registro`.  A field that is absent
or empty is modelled as `""` (both are falsy to the handler's
`if (!nombre || ...)` check); the optional image is `Option`. -/
structure RegistroReq where
  nombre : String
  correo : String
  username : String
  contrasena : String
  imagenBase64 : Option String
  deriving Repr, DecidableEq

/-- The URL Cloudinary answers an upload with (`uploadResult.secure_url`);
external collaborator, modelled as an arbitrary function of the payload. -/
def cloudinaryUrl (img : String) : String :=
  String.append "https://res.cloudinary.test/likering_perfiles/" img

/-- The `POST /api/usuarios/registro` handler (`src/index.js`): validate
the four mandatory fields, upload the optional image to Cloudinary, hash
the password with `bcrypt.hash(contrasena, 10)`, insert, and map a 23505
duplicate-key rejection to HTTP 409.  Returns the new world, the response,
and the trace of store operations issued. -/
def registro (w : World) (req : RegistroReq) : World × Resp × List StoreOp :=
  if req.nombre == "" || req.correo == "" || req.username == "" ||
      req.contrasena == "" then
    (w, ⟨400, RespBody.error "Faltan campos obligatorios."⟩, [])
  else
    let wImg : World :=
      match req.imagenBase64 with
      | some img => { w with cloud := w.cloud ++ [img] }
      | none => w
    let imageUrl : Option String := req.imagenBase64.map cloudinaryUrl
    let hash := bcryptHash req.contrasena 10 wImg.nextSalt
    let w2 : World := { wImg with nextSalt := wImg.nextSalt + 1 }
    let op := StoreOp.insert req.nombre req.correo req.username hash imageUrl
    match insertUsuario w2 req.nombre req.correo req.username hash imageUrl with
    | Except.ok (w3, row) =>
        (w3, ⟨201, RespBody.user (sanitizeRow row)⟩, [op])
    | Except.error _ =>
        (w2, ⟨409, RespBody.error "El nombre de usuario o correo ya está registrado."⟩, [op])

/-- The `POST /api/usuarios/login` handler (`src/index.js`): validate the
two credentials, look the account up by `username = $1 OR correo = $1`,
compare via `bcrypt.compare`, and strip `contrasena_hash` on success. -/
def login (w : World) (query password : String) : Resp :=
  if query == "" || password == "" then
    ⟨400, RespBody.error "Faltan credenciales (usuario/correo y contraseña)."⟩
  else
    match w.rows.find? (fun r => r.username == query || r.correo == query) with
    | none => ⟨401, RespBody.error "Credenciales incorrectas."⟩
    | some user =>
      if bcryptCompare password user.contrasena_hash then
        ⟨200, RespBody.user (sanitizeRow user)⟩
      else
        ⟨401, RespBody.error "Contraseña incorrecta."⟩

/-- The `GET /api/usuarios/buscar?query=` handler (`src/index.js`): look
the account up by `username = $1 OR correo = $1`, selecting only the
sanitized columns `id, nombre, username, correo, imagen_url`. -/
def buscar (w : World) (query : String) : Resp :=
  if query == "" then
    ⟨400, RespBody.error "Falta el parámetro de búsqueda (query)."⟩
  else
    match w.rows.find? (fun r => r.username == query || r.correo == query) with
    | none => ⟨404, RespBody.error "Usuario no encontrado."⟩
    | some user => ⟨200, RespBody.user (sanitizeRow user)⟩

/-- One row of the `usuarios` table as used by the plaintext variant
(`src/index.js`, second document): a plaintext `contrasena` column plus
`descripcion` and `tipo` profile fields. -/
structure UserRowV2 where
  id : Nat
  correo : String
  username : String
  contrasena : String
  nombre : String
  descripcion : String
  tipo : String
  deriving Repr, DecidableEq

/-- The view returned by the plaintext variant's register:
`RETURNING id, nombre, username, tipo`. -/
structure UserViewV2 where
  id : Nat
  nombre : String
  username : String
  tipo : String
  deriving Repr, DecidableEq

/-- Table state of the plaintext variant. -/
structure WorldV2 where
  rows : List UserRowV2
  nextId : Nat
  deriving Repr, DecidableEq

/-- Request body of the plaintext variant's `POST /api/usuarios`. -/
structure CrearReq where
  correo : String
  username : String
  contrasena : String
  nombre : String
  descripcion : String
  tipo : String
  deriving Repr, DecidableEq

/-- The `POST /api/usuarios` handler of the plaintext variant
(`src/index.js`, second document): validate `correo, username, contrasena,
nombre`, then `INSERT INTO usuarios (correo, username, contrasena, ...)`
storing the password verbatim (the source itself warns: "Esta contrasena
debe ser hasheada con bcrypt en una aplicación real"), 23505 mapped to 409. -/
def crearUsuario (w : WorldV2) (req : CrearReq) :
    WorldV2 × Nat × Option UserViewV2 :=
  if req.correo == "" || req.username == "" || req.contrasena == "" ||
      req.nombre == "" then
    (w, 400, none)
  else if w.rows.any (fun r => r.username == req.username || r.correo == req.correo) then
    (w, 409, none)
  else
    let row : UserRowV2 :=
      ⟨w.nextId, req.correo, req.username, req.contrasena, req.nombre,
        req.descripcion, req.tipo⟩
    ({ rows := w.rows ++ [row], nextId := w.nextId + 1 }, 201,
      some ⟨row.id, row.nombre, row.username, row.tipo⟩)

/-- One row of the `usuarios` table as used by the `src/unnamed/part_001`
variant: it carries a plaintext `password` column next to the profile
fields, so `SELECT *` on it yields the password. -/
structure UserRowP where
  id : Nat
  nombre : String
  username : String
  tipo : String
  seguidores : Nat
  imagen_url : Option String
  correo : String
  password : String
  deriving Repr, DecidableEq

/-- The `GET /api/usuarios` handler of `src/unnamed/part_001`: it runs
`SELECT * FROM usuarios` and answers `res.json(result.rows)` — the rows go
out verbatim, password column included. -/
def listUsuarios (rows : List UserRowP) : Nat × List UserRowP :=
  (200, rows)

/-- Sanitized view used by the `part_001` search handler after
`delete user.password`. -/
structure UserViewP where
  id : Nat
  nombre : String
  username : String
  tipo : String
  seguidores : Nat
  imagen_url : Option String
  correo : String
  deriving Repr, DecidableEq

/-- The `GET /api/usuarios/buscar` handler of `src/unnamed/part_001`:
lowercases the query, looks up by `username = $1 OR correo = $1`, and
deletes the `password` field before answering. -/
def buscarP (rows : List UserRowP) (query : String) :
    Nat × Option UserViewP :=
  if query == "" then (400, none)
  else
    match rows.find? (fun r =>
        r.username == query.toLower || r.correo == query.toLower) with
    | none => (404, none)
    | some u =>
        (200, some ⟨u.id, u.nombre, u.username, u.tipo, u.seguidores,
          u.imagen_url, u.correo⟩)

/-- The row that a successful `registro` inserts: serial id, the request
fields, the `bcrypt.hash(contrasena, 10)` digest with the fresh salt, and
the Cloudinary URL of the optional image. -/
def registroRow (w : World) (req : RegistroReq) : UserRow :=
  ⟨w.nextId, req.nombre, req.correo, req.username,
    bcryptHash req.contrasena 10 w.nextSalt, req.imagenBase64.map cloudinaryUrl⟩

/-- The Cloudinary store after `registro` ran its upload step. -/
def cloudAfter (w : World) (req : RegistroReq) : List String :=
  match req.imagenBase64 with
  | some img => w.cloud ++ [img]
  | none => w.cloud

example : bcryptCompare "pass123" (bcryptHash "pass123" 10 0) = true := by decide
example : bcryptCompare "wrong" (bcryptHash "pass123" 10 0) = false := by decide
example : bcryptHash "pass123" 10 0 ≠ bcryptHash "pass123" 10 1 := by decide

/-! ### Properties of the idealised bcrypt model -/

theorem dropThroughDollar_replicate (n : Nat) (c : Char) (hc : c ≠ '$')
    (rest : List Char) :
    dropThroughDollar (List.replicate n c ++ '$' :: rest) = some rest := by
  induction n with
  | zero => simp [dropThroughDollar]
  | succ k ih => simpa [List.replicate_succ, dropThroughDollar, hc] using ih

/-- `bcrypt.compare` against a hash of this model accepts exactly the
password the hash was derived from. -/
theorem bcryptCompare_hash_eq (q p : String) (c s : Nat) :
    bcryptCompare q (bcryptHash p c s) = (p.data == q.data) := by
  have h1 : dropThroughDollar (bcryptHash p c s).data
      = some ('2' :: 'b' :: '$' :: (List.replicate c '0' ++ '$' ::
          (List.replicate s '.' ++ '$' :: p.data))) := by
    show dropThroughDollar ('$' :: '2' :: 'b' :: '$' ::
      (List.replicate c '0' ++ '$' :: (List.replicate s '.' ++ '$' :: p.data))) = _
    rw [dropThroughDollar]
    simp
  have h2 : dropThroughDollar ('2' :: 'b' :: '$' ::
        (List.replicate c '0' ++ '$' :: (List.replicate s '.' ++ '$' :: p.data)))
      = some (List.replicate c '0' ++ '$' ::
          (List.replicate s '.' ++ '$' :: p.data)) := by
    rw [dropThroughDollar, if_neg (by decide), dropThroughDollar,
      if_neg (by decide), dropThroughDollar]
    simp
  have h3 := dropThroughDollar_replicate c '0' (by decide)
    (List.replicate s '.' ++ '$' :: p.data)
  have h4 := dropThroughDollar_replicate s '.' (by decide) p.data
  simp only [bcryptCompare, h1, h2, h3, h4]

theorem bcryptCompare_hash_self (p : String) (c s : Nat) :
    bcryptCompare p (bcryptHash p c s) = true := by
  rw [bcryptCompare_hash_eq]; exact beq_self_eq_true _

theorem bcryptCompare_hash_of_ne (q p : String) (c s : Nat) (h : q ≠ p) :
    bcryptCompare q (bcryptHash p c s) = false := by
  rw [bcryptCompare_hash_eq]
  refine beq_eq_false_iff_ne.mpr ?_
  intro hd
  exact h (congrArg String.mk hd).symm

theorem bcryptHash_length (p : String) (c s : Nat) :
    (bcryptHash p c s).length = p.length + c + s + 6 := by
  show ('$' :: '2' :: 'b' :: '$' :: (List.replicate c '0' ++ '$' ::
    (List.replicate s '.' ++ '$' :: p.data))).length = p.data.length + c + s + 6
  simp [List.length_append, List.length_replicate]
  omega

/-- A stored bcrypt hash is never the plaintext password itself (it is
strictly longer). -/
theorem bcryptHash_ne_plaintext (p : String) (c s : Nat) :
    bcryptHash p c s ≠ p := by
  intro h
  have hlen := congrArg String.length h
  rw [bcryptHash_length] at hlen
  omega

/-- Distinct salts produce distinct hash strings for the same password and
cost (the salt is embedded in the stored string). -/
theorem bcryptHash_salt_injective (p : String) (c s1 s2 : Nat) (h : s1 ≠ s2) :
    bcryptHash p c s1 ≠ bcryptHash p c s2 := by
  intro he
  have hlen := congrArg String.length he
  rw [bcryptHash_length, bcryptHash_length] at hlen
  omega

/-! ### Characterisation of the `registro` handler -/

theorem registroCond_eq_false (req : RegistroReq) (hn : req.nombre ≠ "")
    (hc : req.correo ≠ "") (hu : req.username ≠ "") (hp : req.contrasena ≠ "") :
    (req.nombre == "" || req.correo == "" || req.username == "" ||
      req.contrasena == "") = false := by
  simp [hn, hc, hu, hp]

theorem anyMatch_eq_false (rows : List UserRow) (username correo : String)
    (h : ∀ r ∈ rows, r.username ≠ username ∧ r.correo ≠ correo) :
    (rows.any (fun r => r.username == username || r.correo == correo)) = false := by
  rw [List.any_eq_false]
  intro r hr
  simp [(h r hr).1, (h r hr).2]

theorem anyMatch_eq_true (rows : List UserRow) (username correo : String)
    (r : UserRow) (hr : r ∈ rows)
    (h : r.username = username ∨ r.correo = correo) :
    (rows.any (fun r => r.username == username || r.correo == correo)) = true := by
  rw [List.any_eq_true]
  refine ⟨r, hr, ?_⟩
  rcases h with h | h <;> simp [h]

/-- `registro` on a request with an empty mandatory field: HTTP 400, the
world untouched, no store operation issued. -/
theorem registro_eq_of_invalid (w : World) (req : RegistroReq)
    (hv : (req.nombre == "" || req.correo == "" || req.username == "" ||
      req.contrasena == "") = true) :
    registro w req = (w, ⟨400, RespBody.error "Faltan campos obligatorios."⟩, []) := by
  unfold registro
  simp [hv]

/-- `registro` on a valid, conflict-free request: the row is appended with
the next serial id, the salt counter advances, the optional image is in the
image store, and the response is 201 with the sanitized view. -/
theorem registro_eq_of_success (w : World) (req : RegistroReq)
    (hv : (req.nombre == "" || req.correo == "" || req.username == "" ||
      req.contrasena == "") = false)
    (hdup : (w.rows.any (fun r => r.username == req.username ||
      r.correo == req.correo)) = false) :
    registro w req =
      (⟨w.rows ++ [registroRow w req], w.nextId + 1, w.nextSalt + 1, cloudAfter w req⟩,
       ⟨201, RespBody.user (sanitizeRow (registroRow w req))⟩,
       [StoreOp.insert req.nombre req.correo req.username
          (bcryptHash req.contrasena 10 w.nextSalt) (req.imagenBase64.map cloudinaryUrl)]) := by
  unfold registro registroRow cloudAfter
  cases himg : req.imagenBase64 with
  | none => simp [hv, himg, insertUsuario, hdup]
  | some img => simp [hv, himg, insertUsuario, hdup]

/-- `registro` on a valid request whose username or email is already taken:
the insert is attempted and rejected by the store (23505), translated to
HTTP 409; the table is unchanged, but the salt counter and the image store
have advanced (hashing and upload happened before the insert). -/
theorem registro_eq_of_dup (w : World) (req : RegistroReq)
    (hv : (req.nombre == "" || req.correo == "" || req.username == "" ||
      req.contrasena == "") = false)
    (hdup : (w.rows.any (fun r => r.username == req.username ||
      r.correo == req.correo)) = true) :
    registro w req =
      (⟨w.rows, w.nextId, w.nextSalt + 1, cloudAfter w req⟩,
       ⟨409, RespBody.error "El nombre de usuario o correo ya está registrado."⟩,
       [StoreOp.insert req.nombre req.correo req.username
          (bcryptHash req.contrasena 10 w.nextSalt) (req.imagenBase64.map cloudinaryUrl)]) := by
  unfold registro cloudAfter
  cases himg : req.imagenBase64 with
  | none => simp [hv, himg, insertUsuario, hdup]
  | some img => simp [hv, himg, insertUsuario, hdup]

/-! ### Characterisation of the `login` handler -/

theorem loginCond_eq_false (q p : String) (hq : q ≠ "") (hp : p ≠ "") :
    (q == "" || p == "") = false := by
  simp [hq, hp]

theorem login_eq_of_not_found (w : World) (q p : String)
    (hv : (q == "" || p == "") = false)
    (hf : w.rows.find? (fun r => r.username == q || r.correo == q) = none) :
    login w q p = ⟨401, RespBody.error "Credenciales incorrectas."⟩ := by
  unfold login
  simp [hv, hf]

theorem login_eq_of_match (w : World) (q p : String) (u : UserRow)
    (hv : (q == "" || p == "") = false)
    (hf : w.rows.find? (fun r => r.username == q || r.correo == q) = some u)
    (hm : bcryptCompare p u.contrasena_hash = true) :
    login w q p = ⟨200, RespBody.user (sanitizeRow u)⟩ := by
  unfold login
  simp [hv, hf, hm]

theorem login_eq_of_mismatch (w : World) (q p : String) (u : UserRow)
    (hv : (q == "" || p == "") = false)
    (hf : w.rows.find? (fun r => r.username == q || r.correo == q) = some u)
    (hm : bcryptCompare p u.contrasena_hash = false) :
    login w q p = ⟨401, RespBody.error "Contraseña incorrecta."⟩ := by
  unfold login
  simp [hv, hf, hm]

/-- `find?` returns the distinguished member when it is the only one the
predicate accepts. -/
theorem find?_eq_of_mem_of_unique {α : Type} (p : α → Bool) (l : List α)
    (u : α) (hu : u ∈ l) (hpu : p u = true)
    (huniq : ∀ r ∈ l, p r = true → r = u) :
    l.find? p = some u := by
  induction l with
  | nil => cases hu
  | cons a t ih =>
    by_cases hpa : p a = true
    · have ha : a = u := huniq a (List.mem_cons_self a t) hpa
      subst ha
      simp [List.find?_cons_of_pos _ hpa]
    · have hat : u ∈ t := by
        rcases List.mem_cons.mp hu with h | h
        · exact absurd (h ▸ hpu) hpa
        · exact h
      rw [List.find?_cons_of_neg _ (by simpa using hpa)]
      exact ih hat (fun r hr hpr => huniq r (List.mem_cons_of_mem a hr) hpr)

/-! ### Claim theorems -/

/-- C9: for every register request in which any of the four mandatory
fields (displayName, email, username, password) is absent or empty,
`registro` fails with ValidationError (HTTP 400) and performs no side
effect: the account table, the id and salt counters and the image store
are all unchanged and no store operation is issued. -/
theorem C9_validation_atomicity (w : World) (req : RegistroReq)
    (h : req.nombre = "" ∨ req.correo = "" ∨ req.username = "" ∨
      req.contrasena = "") :
    registro w req = (w, ⟨400, RespBody.error "Faltan campos obligatorios."⟩, []) := by
  apply registro_eq_of_invalid
  rcases h with h | h | h | h <;> simp [h]

theorem C9_witness :
    registro ⟨[], 1, 0, []⟩ ⟨"Ana", "a@x.com", "ana", "", some "IMGDATA"⟩
      = (⟨[], 1, 0, []⟩, ⟨400, RespBody.error "Faltan campos obligatorios."⟩, []) :=
  C9_validation_atomicity ⟨[], 1, 0, []⟩ ⟨"Ana", "a@x.com", "ana", "", some "IMGDATA"⟩
    (Or.inr (Or.inr (Or.inr rfl)))

/-- C10: in `registro` the optional image is uploaded to Cloudinary before
the account insert; when the insert is then rejected (duplicate key), the
uploaded image stays in the image store even though no Account was
created — the error path does not undo the upload. -/
theorem C10_upload_persists (w : World) (req : RegistroReq) (img : String)
    (hn : req.nombre ≠ "") (hc : req.correo ≠ "") (hu : req.username ≠ "")
    (hp : req.contrasena ≠ "") (himg : req.imagenBase64 = some img)
    (r : UserRow) (hr : r ∈ w.rows)
    (hdup : r.username = req.username ∨ r.correo = req.correo) :
    (registro w req).2.1.status = 409 ∧
    (registro w req).1.rows = w.rows ∧
    (registro w req).1.cloud = w.cloud ++ [img] := by
  have hv := registroCond_eq_false req hn hc hu hp
  have ha := anyMatch_eq_true w.rows req.username req.correo r hr hdup
  rw [registro_eq_of_dup w req hv ha]
  refine ⟨rfl, rfl, ?_⟩
  simp [cloudAfter, himg]

theorem C10_witness :
    (registro ⟨[⟨1, "Ana", "a@x.com", "ana", bcryptHash "pass123" 10 0, none⟩], 2, 1, []⟩
        ⟨"Ana Dos", "b@x.com", "ana", "zzz", some "IMGDATA"⟩).2.1.status = 409 ∧
    (registro ⟨[⟨1, "Ana", "a@x.com", "ana", bcryptHash "pass123" 10 0, none⟩], 2, 1, []⟩
        ⟨"Ana Dos", "b@x.com", "ana", "zzz", some "IMGDATA"⟩).1.rows
      = [⟨1, "Ana", "a@x.com", "ana", bcryptHash "pass123" 10 0, none⟩] ∧
    (registro ⟨[⟨1, "Ana", "a@x.com", "ana", bcryptHash "pass123" 10 0, none⟩], 2, 1, []⟩
        ⟨"Ana Dos", "b@x.com", "ana", "zzz", some "IMGDATA"⟩).1.cloud = ["IMGDATA"] :=
  C10_upload_persists
    ⟨[⟨1, "Ana", "a@x.com", "ana", bcryptHash "pass123" 10 0, none⟩], 2, 1, []⟩
    ⟨"Ana Dos", "b@x.com", "ana", "zzz", some "IMGDATA"⟩ "IMGDATA"
    (by decide) (by decide) (by decide) (by decide) rfl
    ⟨1, "Ana", "a@x.com", "ana", bcryptHash "pass123" 10 0, none⟩
    (List.mem_cons_self _ _) (Or.inl rfl)

/-- C6: when the Credential Store rejects a register insert because of a
duplicate username or email key (PostgreSQL error 23505), `registro` fails
with the ConflictError contract (HTTP 409, the duplicate message) and the
stored set of Accounts is unchanged: same rows, same next serial id — no
partial insert, no second row. -/
theorem C6_conflict_translation (w : World) (req : RegistroReq)
    (hn : req.nombre ≠ "") (hc : req.correo ≠ "") (hu : req.username ≠ "")
    (hp : req.contrasena ≠ "")
    (r : UserRow) (hr : r ∈ w.rows)
    (hdup : r.username = req.username ∨ r.correo = req.correo) :
    (registro w req).2.1
      = ⟨409, RespBody.error "El nombre de usuario o correo ya está registrado."⟩ ∧
    (registro w req).1.rows = w.rows ∧
    (registro w req).1.nextId = w.nextId := by
  have hv := registroCond_eq_false req hn hc hu hp
  have ha := anyMatch_eq_true w.rows req.username req.correo r hr hdup
  rw [registro_eq_of_dup w req hv ha]
  exact ⟨rfl, rfl, rfl⟩

theorem C6_witness :
    (registro ⟨[⟨1, "Ana", "a@x.com", "ana", bcryptHash "pass123" 10 0, none⟩], 2, 1, []⟩
        ⟨"Ana Dos", "b@x.com", "ana", "zzz", none⟩).2.1
      = ⟨409, RespBody.error "El nombre de usuario o correo ya está registrado."⟩ ∧
    (registro ⟨[⟨1, "Ana", "a@x.com", "ana", bcryptHash "pass123" 10 0, none⟩], 2, 1, []⟩
        ⟨"Ana Dos", "b@x.com", "ana", "zzz", none⟩).1.rows
      = [⟨1, "Ana", "a@x.com", "ana", bcryptHash "pass123" 10 0, none⟩] ∧
    (registro ⟨[⟨1, "Ana", "a@x.com", "ana", bcryptHash "pass123" 10 0, none⟩], 2, 1, []⟩
        ⟨"Ana Dos", "b@x.com", "ana", "zzz", none⟩).1.nextId = 2 :=
  C6_conflict_translation
    ⟨[⟨1, "Ana", "a@x.com", "ana", bcryptHash "pass123" 10 0, none⟩], 2, 1, []⟩
    ⟨"Ana Dos", "b@x.com", "ana", "zzz", none⟩
    (by decide) (by decide) (by decide) (by decide)
    ⟨1, "Ana", "a@x.com", "ana", bcryptHash "pass123" 10 0, none⟩
    (List.mem_cons_self _ _) (Or.inl rfl)

/-- C8: two separate successful `registro` calls hashing the same plaintext
password store two different hash strings (the salt counter advances, so
the second call uses a fresh salt), yet `bcrypt.compare` accepts the
original plaintext against each stored hash. -/
theorem C8_fresh_salt_roundtrip (w : World) (r1 r2 : RegistroReq)
    (hpw : r2.contrasena = r1.contrasena)
    (hn1 : r1.nombre ≠ "") (hc1 : r1.correo ≠ "") (hu1 : r1.username ≠ "")
    (hp1 : r1.contrasena ≠ "")
    (hn2 : r2.nombre ≠ "") (hc2 : r2.correo ≠ "") (hu2 : r2.username ≠ "")
    (hp2 : r2.contrasena ≠ "")
    (hdup1 : ∀ r ∈ w.rows, r.username ≠ r1.username ∧ r.correo ≠ r1.correo)
    (hdup2 : ∀ r ∈ (registro w r1).1.rows,
      r.username ≠ r2.username ∧ r.correo ≠ r2.correo) :
    (registro (registro w r1).1 r2).1.rows
      = w.rows ++ [registroRow w r1, registroRow (registro w r1).1 r2] ∧
    (registroRow w r1).contrasena_hash
      ≠ (registroRow (registro w r1).1 r2).contrasena_hash ∧
    bcryptCompare r1.contrasena (registroRow w r1).contrasena_hash = true ∧
    bcryptCompare r2.contrasena
      (registroRow (registro w r1).1 r2).contrasena_hash = true := by
  have hv1 := registroCond_eq_false r1 hn1 hc1 hu1 hp1
  have hv2 := registroCond_eq_false r2 hn2 hc2 hu2 hp2
  have ha1 := anyMatch_eq_false w.rows r1.username r1.correo hdup1
  have e1 := registro_eq_of_success w r1 hv1 ha1
  have ha2 := anyMatch_eq_false (registro w r1).1.rows r2.username r2.correo hdup2
  have e2 := registro_eq_of_success (registro w r1).1 r2 hv2 ha2
  have hsalt : (registro w r1).1.nextSalt = w.nextSalt + 1 := by rw [e1]
  refine ⟨?_, ?_, bcryptCompare_hash_self _ _ _, bcryptCompare_hash_self _ _ _⟩
  · rw [e2, e1]
    simp
  · show bcryptHash r1.contrasena 10 w.nextSalt
      ≠ bcryptHash r2.contrasena 10 (registro w r1).1.nextSalt
    rw [hpw, hsalt]
    exact bcryptHash_salt_injective _ _ _ _ (by omega)

theorem C8_witness :
    (registro (registro ⟨[], 1, 0, []⟩ ⟨"Ana", "a@x.com", "ana", "pass123", none⟩).1
        ⟨"Bob", "b@x.com", "bob", "pass123", none⟩).1.rows
      = [] ++ [registroRow ⟨[], 1, 0, []⟩ ⟨"Ana", "a@x.com", "ana", "pass123", none⟩,
          registroRow (registro ⟨[], 1, 0, []⟩ ⟨"Ana", "a@x.com", "ana", "pass123", none⟩).1
            ⟨"Bob", "b@x.com", "bob", "pass123", none⟩] ∧
    (registroRow ⟨[], 1, 0, []⟩ ⟨"Ana", "a@x.com", "ana", "pass123", none⟩).contrasena_hash
      ≠ (registroRow (registro ⟨[], 1, 0, []⟩ ⟨"Ana", "a@x.com", "ana", "pass123", none⟩).1
          ⟨"Bob", "b@x.com", "bob", "pass123", none⟩).contrasena_hash ∧
    bcryptCompare "pass123"
      (registroRow ⟨[], 1, 0, []⟩ ⟨"Ana", "a@x.com", "ana", "pass123", none⟩).contrasena_hash
      = true ∧
    bcryptCompare "pass123"
      (registroRow (registro ⟨[], 1, 0, []⟩ ⟨"Ana", "a@x.com", "ana", "pass123", none⟩).1
          ⟨"Bob", "b@x.com", "bob", "pass123", none⟩).contrasena_hash = true :=
  C8_fresh_salt_roundtrip ⟨[], 1, 0, []⟩
    ⟨"Ana", "a@x.com", "ana", "pass123", none⟩
    ⟨"Bob", "b@x.com", "bob", "pass123", none⟩
    rfl (by decide) (by decide) (by decide) (by decide)
    (by decide) (by decide) (by decide) (by decide)
    (by decide) (by decide)

/-- C3 (counterexample): the claim says register queries the store for an
existing username/email before inserting and, on a match, fails without
attempting the insert.  At this concrete duplicate registration the trace
of store operations `registro` issues is exactly one INSERT attempt: it
contains no SELECT pre-check, and the insert is attempted. -/
theorem C3_counterexample :
    (registro ⟨[⟨1, "Ana", "a@x.com", "ana", bcryptHash "pass123" 10 0, none⟩], 2, 1, []⟩
        ⟨"Ana Dos", "b@x.com", "ana", "zzz", none⟩).2.2
      = [StoreOp.insert "Ana Dos" "b@x.com" "ana" (bcryptHash "zzz" 10 1) none] ∧
    ((registro ⟨[⟨1, "Ana", "a@x.com", "ana", bcryptHash "pass123" 10 0, none⟩], 2, 1, []⟩
        ⟨"Ana Dos", "b@x.com", "ana", "zzz", none⟩).2.2.countP StoreOp.isSelect) = 0 ∧
    (registro ⟨[⟨1, "Ana", "a@x.com", "ana", bcryptHash "pass123" 10 0, none⟩], 2, 1, []⟩
        ⟨"Ana Dos", "b@x.com", "ana", "zzz", none⟩).2.1.status = 409 := by
  decide

/-- C3 (amended): `registro` performs no lookup pre-check.  On a valid
request whose username or email is already taken, the only store operation
issued is the insert attempt itself (the trace contains no SELECT), and the
store's duplicate-key rejection is translated to ConflictError (HTTP 409)
with the account table unchanged. -/
theorem C3_no_precheck (w : World) (req : RegistroReq)
    (hn : req.nombre ≠ "") (hc : req.correo ≠ "") (hu : req.username ≠ "")
    (hp : req.contrasena ≠ "")
    (r : UserRow) (hr : r ∈ w.rows)
    (hdup : r.username = req.username ∨ r.correo = req.correo) :
    (registro w req).2.2
      = [StoreOp.insert req.nombre req.correo req.username
          (bcryptHash req.contrasena 10 w.nextSalt)
          (req.imagenBase64.map cloudinaryUrl)] ∧
    ((registro w req).2.2.countP StoreOp.isSelect) = 0 ∧
    (registro w req).2.1.status = 409 ∧
    (registro w req).1.rows = w.rows := by
  have hv := registroCond_eq_false req hn hc hu hp
  have ha := anyMatch_eq_true w.rows req.username req.correo r hr hdup
  rw [registro_eq_of_dup w req hv ha]
  refine ⟨rfl, ?_, rfl, rfl⟩
  simp [List.countP_cons, StoreOp.isSelect]

theorem C3_witness :
    (registro ⟨[⟨1, "Eva", "e@x.com", "eva", bcryptHash "s3cret" 10 0, none⟩], 2, 1, []⟩
        ⟨"Eva Dos", "e2@x.com", "eva", "qwerty", none⟩).2.2
      = [StoreOp.insert "Eva Dos" "e2@x.com" "eva" (bcryptHash "qwerty" 10 1) none] ∧
    ((registro ⟨[⟨1, "Eva", "e@x.com", "eva", bcryptHash "s3cret" 10 0, none⟩], 2, 1, []⟩
        ⟨"Eva Dos", "e2@x.com", "eva", "qwerty", none⟩).2.2.countP StoreOp.isSelect) = 0 ∧
    (registro ⟨[⟨1, "Eva", "e@x.com", "eva", bcryptHash "s3cret" 10 0, none⟩], 2, 1, []⟩
        ⟨"Eva Dos", "e2@x.com", "eva", "qwerty", none⟩).2.1.status = 409 ∧
    (registro ⟨[⟨1, "Eva", "e@x.com", "eva", bcryptHash "s3cret" 10 0, none⟩], 2, 1, []⟩
        ⟨"Eva Dos", "e2@x.com", "eva", "qwerty", none⟩).1.rows
      = [⟨1, "Eva", "e@x.com", "eva", bcryptHash "s3cret" 10 0, none⟩] :=
  C3_no_precheck
    ⟨[⟨1, "Eva", "e@x.com", "eva", bcryptHash "s3cret" 10 0, none⟩], 2, 1, []⟩
    ⟨"Eva Dos", "e2@x.com", "eva", "qwerty", none⟩
    (by decide) (by decide) (by decide) (by decide)
    ⟨1, "Eva", "e@x.com", "eva", bcryptHash "s3cret" 10 0, none⟩
    (List.mem_cons_self _ _) (Or.inl rfl)

/-- C1 (counterexample): the round-trip claim fails as stated.  Register
"Xavi" with email `"ana"`, then register "Ana" with username `"ana"` (both
succeed: uniqueness is per-field).  Now `login("ana", "pass123")` with
Ana's correct password resolves the identifier to Xavi's row (matched by
email, stored first) and fails 401; and `login("ana", "")` with a password
other than Ana's fails 400, not 401. -/
theorem C1_counterexample :
    (registro (registro ⟨[], 1, 0, []⟩ ⟨"Xavi", "ana", "xavi", "qqq", none⟩).1
        ⟨"Ana", "a@x.com", "ana", "pass123", none⟩).2.1.status = 201 ∧
    login (registro (registro ⟨[], 1, 0, []⟩ ⟨"Xavi", "ana", "xavi", "qqq", none⟩).1
        ⟨"Ana", "a@x.com", "ana", "pass123", none⟩).1 "ana" "pass123"
      = ⟨401, RespBody.error "Contraseña incorrecta."⟩ ∧
    login (registro (registro ⟨[], 1, 0, []⟩ ⟨"Xavi", "ana", "xavi", "qqq", none⟩).1
        ⟨"Ana", "a@x.com", "ana", "pass123", none⟩).1 "ana" ""
      = ⟨400, RespBody.error "Faltan credenciales (usuario/correo y contraseña)."⟩ := by
  decide

/-- C1 (amended): for every account created by `registro` such that no
previously stored account's email equals the new account's username, a
subsequent `login` with that username and the registration password
succeeds (HTTP 200) with the very view the registration returned (same
Account id), and a login with that username and any non-empty password
other than the registration password fails 401. -/
theorem C1_register_login_roundtrip (w : World) (req : RegistroReq) (p2 : String)
    (hn : req.nombre ≠ "") (hc : req.correo ≠ "") (hu : req.username ≠ "")
    (hp : req.contrasena ≠ "")
    (hdup : ∀ r ∈ w.rows, r.username ≠ req.username ∧ r.correo ≠ req.correo)
    (hcross : ∀ r ∈ w.rows, r.correo ≠ req.username)
    (hp2 : p2 ≠ req.contrasena) (hp2e : p2 ≠ "") :
    (registro w req).2.1 = ⟨201, RespBody.user (sanitizeRow (registroRow w req))⟩ ∧
    login (registro w req).1 req.username req.contrasena
      = ⟨200, RespBody.user (sanitizeRow (registroRow w req))⟩ ∧
    login (registro w req).1 req.username p2
      = ⟨401, RespBody.error "Contraseña incorrecta."⟩ := by
  have hv := registroCond_eq_false req hn hc hu hp
  have ha := anyMatch_eq_false w.rows req.username req.correo hdup
  have e1 := registro_eq_of_success w req hv ha
  have hfind : (registro w req).1.rows.find?
      (fun r => r.username == req.username || r.correo == req.username)
      = some (registroRow w req) := by
    rw [e1]
    apply find?_eq_of_mem_of_unique
    · simp
    · simp [registroRow]
    · intro r hr hpr
      rcases List.mem_append.mp hr with h | h
      · exact absurd hpr (by simp [(hdup r h).1, hcross r h])
      · simpa using h
  refine ⟨by rw [e1], ?_, ?_⟩
  · exact login_eq_of_match _ _ _ _ (loginCond_eq_false _ _ hu hp) hfind
      (bcryptCompare_hash_self req.contrasena 10 w.nextSalt)
  · exact login_eq_of_mismatch _ _ _ _ (loginCond_eq_false _ _ hu hp2e) hfind
      (bcryptCompare_hash_of_ne p2 req.contrasena 10 w.nextSalt hp2)

theorem C1_witness :
    (registro ⟨[], 1, 0, []⟩ ⟨"Ana", "a@x.com", "ana", "pass123", none⟩).2.1
      = ⟨201, RespBody.user (sanitizeRow
          (registroRow ⟨[], 1, 0, []⟩ ⟨"Ana", "a@x.com", "ana", "pass123", none⟩))⟩ ∧
    login (registro ⟨[], 1, 0, []⟩ ⟨"Ana", "a@x.com", "ana", "pass123", none⟩).1
        "ana" "pass123"
      = ⟨200, RespBody.user (sanitizeRow
          (registroRow ⟨[], 1, 0, []⟩ ⟨"Ana", "a@x.com", "ana", "pass123", none⟩))⟩ ∧
    login (registro ⟨[], 1, 0, []⟩ ⟨"Ana", "a@x.com", "ana", "pass123", none⟩).1
        "ana" "wrong"
      = ⟨401, RespBody.error "Contraseña incorrecta."⟩ :=
  C1_register_login_roundtrip ⟨[], 1, 0, []⟩
    ⟨"Ana", "a@x.com", "ana", "pass123", none⟩ "wrong"
    (by decide) (by decide) (by decide) (by decide)
    (by decide) (by decide) (by decide) (by decide)

/-- C5 (counterexample): the two failing logins do not carry the same
message text: an unknown identifier answers "Credenciales incorrectas."
while a wrong password for an existing account answers "Contraseña
incorrecta.", so a caller can tell which half failed. -/
theorem C5_counterexample :
    login ⟨[⟨1, "Ana", "a@x.com", "ana", bcryptHash "pass123" 10 0, none⟩], 2, 1, []⟩
        "bob" "pass123"
      = ⟨401, RespBody.error "Credenciales incorrectas."⟩ ∧
    login ⟨[⟨1, "Ana", "a@x.com", "ana", bcryptHash "pass123" 10 0, none⟩], 2, 1, []⟩
        "ana" "wrong"
      = ⟨401, RespBody.error "Contraseña incorrecta."⟩ ∧
    ("Credenciales incorrectas." : String) ≠ "Contraseña incorrecta." := by
  decide

/-- C5 (amended): a login whose identifier matches no account and a login
whose identifier matches an account but whose password does not verify
both fail with the same status 401 and the same `{ error: ... }` body
structure, but with different fixed message texts ("Credenciales
incorrectas." vs "Contraseña incorrecta."), so the two failures are
distinguishable by message. -/
theorem C5_failure_distinguishable (w : World) (q1 p1 q2 p2 : String)
    (hq1 : q1 ≠ "") (hp1 : p1 ≠ "") (hq2 : q2 ≠ "") (hp2 : p2 ≠ "")
    (hnf : w.rows.find? (fun r => r.username == q1 || r.correo == q1) = none)
    (u : UserRow)
    (hf : w.rows.find? (fun r => r.username == q2 || r.correo == q2) = some u)
    (hmm : bcryptCompare p2 u.contrasena_hash = false) :
    login w q1 p1 = ⟨401, RespBody.error "Credenciales incorrectas."⟩ ∧
    login w q2 p2 = ⟨401, RespBody.error "Contraseña incorrecta."⟩ ∧
    (login w q1 p1).status = (login w q2 p2).status ∧
    (login w q1 p1).body ≠ (login w q2 p2).body := by
  have e1 := login_eq_of_not_found w q1 p1 (loginCond_eq_false _ _ hq1 hp1) hnf
  have e2 := login_eq_of_mismatch w q2 p2 u (loginCond_eq_false _ _ hq2 hp2) hf hmm
  rw [e1, e2]
  exact ⟨rfl, rfl, rfl, by decide⟩

theorem C5_witness :
    login ⟨[⟨1, "Eva", "e@x.com", "eva", bcryptHash "s3cret" 10 0, none⟩], 2, 1, []⟩
        "bob" "abc"
      = ⟨401, RespBody.error "Credenciales incorrectas."⟩ ∧
    login ⟨[⟨1, "Eva", "e@x.com", "eva", bcryptHash "s3cret" 10 0, none⟩], 2, 1, []⟩
        "eva" "wrong"
      = ⟨401, RespBody.error "Contraseña incorrecta."⟩ ∧
    (login ⟨[⟨1, "Eva", "e@x.com", "eva", bcryptHash "s3cret" 10 0, none⟩], 2, 1, []⟩
        "bob" "abc").status
      = (login ⟨[⟨1, "Eva", "e@x.com", "eva", bcryptHash "s3cret" 10 0, none⟩], 2, 1, []⟩
        "eva" "wrong").status ∧
    (login ⟨[⟨1, "Eva", "e@x.com", "eva", bcryptHash "s3cret" 10 0, none⟩], 2, 1, []⟩
        "bob" "abc").body
      ≠ (login ⟨[⟨1, "Eva", "e@x.com", "eva", bcryptHash "s3cret" 10 0, none⟩], 2, 1, []⟩
        "eva" "wrong").body :=
  C5_failure_distinguishable
    ⟨[⟨1, "Eva", "e@x.com", "eva", bcryptHash "s3cret" 10 0, none⟩], 2, 1, []⟩
    "bob" "abc" "eva" "wrong"
    (by decide) (by decide) (by decide) (by decide) (by decide)
    ⟨1, "Eva", "e@x.com", "eva", bcryptHash "s3cret" 10 0, none⟩
    (by decide) (by decide)

/-- C7 (counterexample): identifier symmetry fails as stated.  Register
"Alba" whose username is `"b@x.com"`, then register "Bob" whose email is
`"b@x.com"` (both succeed: uniqueness is per-field).  Bob's username login
succeeds, but Bob's email login resolves `"b@x.com"` to Alba's row
(matched by username, stored first) and fails 401. -/
theorem C7_counterexample :
    (registro ⟨[], 1, 0, []⟩ ⟨"Alba", "a@x.com", "b@x.com", "pa", none⟩).2.1.status = 201 ∧
    (registro (registro ⟨[], 1, 0, []⟩ ⟨"Alba", "a@x.com", "b@x.com", "pa", none⟩).1
        ⟨"Bob", "b@x.com", "bob", "pb", none⟩).2.1.status = 201 ∧
    login (registro (registro ⟨[], 1, 0, []⟩ ⟨"Alba", "a@x.com", "b@x.com", "pa", none⟩).1
        ⟨"Bob", "b@x.com", "bob", "pb", none⟩).1 "bob" "pb"
      = ⟨200, RespBody.user ⟨2, "Bob", "bob", "b@x.com", none⟩⟩ ∧
    login (registro (registro ⟨[], 1, 0, []⟩ ⟨"Alba", "a@x.com", "b@x.com", "pa", none⟩).1
        ⟨"Bob", "b@x.com", "bob", "pb", none⟩).1 "b@x.com" "pb"
      = ⟨401, RespBody.error "Contraseña incorrecta."⟩ := by
  decide

/-- C7 (amended): for every stored account neither of whose identifiers
(username, email) is also carried, on either field, by any other stored
account, `login` with the account's username and `login` with the
account's email (each with the correct password) both succeed and return
the same sanitized view, hence the same Account id. -/
theorem C7_identifier_symmetry (w : World) (u : UserRow) (p : String)
    (hmem : u ∈ w.rows) (hun : u.username ≠ "") (hem : u.correo ≠ "")
    (hp : p ≠ "") (hpw : bcryptCompare p u.contrasena_hash = true)
    (huniq : ∀ r ∈ w.rows, r ≠ u →
      r.username ≠ u.username ∧ r.correo ≠ u.username ∧
      r.username ≠ u.correo ∧ r.correo ≠ u.correo) :
    login w u.username p = ⟨200, RespBody.user (sanitizeRow u)⟩ ∧
    login w u.correo p = ⟨200, RespBody.user (sanitizeRow u)⟩ := by
  have hf1 : w.rows.find?
      (fun r => r.username == u.username || r.correo == u.username) = some u := by
    apply find?_eq_of_mem_of_unique _ _ _ hmem (by simp)
    intro r hr hpr
    by_contra hne
    have h := huniq r hr hne
    simp [h.1, h.2.1] at hpr
  have hf2 : w.rows.find?
      (fun r => r.username == u.correo || r.correo == u.correo) = some u := by
    apply find?_eq_of_mem_of_unique _ _ _ hmem (by simp)
    intro r hr hpr
    by_contra hne
    have h := huniq r hr hne
    simp [h.2.2.1, h.2.2.2] at hpr
  exact ⟨login_eq_of_match _ _ _ _ (loginCond_eq_false _ _ hun hp) hf1 hpw,
    login_eq_of_match _ _ _ _ (loginCond_eq_false _ _ hem hp) hf2 hpw⟩

theorem C7_witness :
    login ⟨[⟨1, "Eva", "e@x.com", "eva", bcryptHash "s3cret" 10 0, none⟩], 2, 1, []⟩
        "eva" "s3cret"
      = ⟨200, RespBody.user (sanitizeRow
          ⟨1, "Eva", "e@x.com", "eva", bcryptHash "s3cret" 10 0, none⟩)⟩ ∧
    login ⟨[⟨1, "Eva", "e@x.com", "eva", bcryptHash "s3cret" 10 0, none⟩], 2, 1, []⟩
        "e@x.com" "s3cret"
      = ⟨200, RespBody.user (sanitizeRow
          ⟨1, "Eva", "e@x.com", "eva", bcryptHash "s3cret" 10 0, none⟩)⟩ :=
  C7_identifier_symmetry
    ⟨[⟨1, "Eva", "e@x.com", "eva", bcryptHash "s3cret" 10 0, none⟩], 2, 1, []⟩
    ⟨1, "Eva", "e@x.com", "eva", bcryptHash "s3cret" 10 0, none⟩ "s3cret"
    (List.mem_cons_self _ _) (by decide) (by decide) (by decide)
    (bcryptCompare_hash_self "s3cret" 10 0) (by decide)

/-- C2: refuted on the code: the `GET /api/usuarios` handler of
`src/unnamed/part_001` runs `SELECT * FROM usuarios` and answers
`res.json(result.rows)` verbatim, so the listing path returns account
representations that still carry the stored `password` field — at this
concrete store the response body exposes the stored password "pass123"
(the same file's search and login handlers do strip it, so the spec's
unconditional sanitization is the evident intent). -/
theorem C2_list_exposes_password :
    (listUsuarios [⟨1, "Ana", "ana", "base", 7, none, "a@x.com", "pass123"⟩]).1 = 200 ∧
    (listUsuarios [⟨1, "Ana", "ana", "base", 7, none, "a@x.com", "pass123"⟩]).2
      = [⟨1, "Ana", "ana", "base", 7, none, "a@x.com", "pass123"⟩] ∧
    (⟨1, "Ana", "ana", "base", 7, none, "a@x.com", "pass123"⟩ : UserRowP).password
      = "pass123" := by
  decide

/-- C4: refuted on the code: the `POST /api/usuarios` handler of the
plaintext variant (`src/index.js`, second document) inserts the request's
`contrasena` verbatim into the `usuarios` table, so the stored credential
of the account it creates equals the plaintext password supplied at
registration — no salted cost-10 hash is derived (the source's own comment
says the password "debe ser hasheada con bcrypt"). -/
theorem C4_plaintext_stored :
    (crearUsuario ⟨[], 1⟩ ⟨"a@x.com", "ana", "pass123", "Ana", "", ""⟩).2.1 = 201 ∧
    (crearUsuario ⟨[], 1⟩ ⟨"a@x.com", "ana", "pass123", "Ana", "", ""⟩).1.rows
      = [⟨1, "a@x.com", "ana", "pass123", "Ana", "", ""⟩] ∧
    (⟨1, "a@x.com", "ana", "pass123", "Ana", "", ""⟩ : UserRowV2).contrasena
      = "pass123" := by
  decide
